import Mathlib

/-!
Shallow embedding of the asset-generation scripts (asset_generation_blueprint.py,
numbered_list.py, text_canvas.py) of this repository, together with theorems
settling the spec's claims about them.

HTTP interactions are modelled by the sequence of status codes the remote
service returns; time is modelled by the elapsed-seconds counter the code keeps
(`time.time() - start`), idealised so that the GET itself is instantaneous and
each `time.sleep(poll_interval)` advances elapsed time by exactly
`poll_interval` seconds.  A response is `ok` in the sense of the `requests`
library exactly when its status code is below 400.
-/

/-- Outcome of a polling loop run against a finite prefix of the service's
status-code sequence.  `pending` means the loop has consumed every supplied
response and is still polling (it would issue another GET). -/
inductive PollOutcome where
  | success (code : Nat)
  | fatalHttp (code : Nat)
  | fatalTimeout
  | pending
deriving DecidableEq, Repr

/-- The polling loop of `send_async_generation_request`
(asset_generation_blueprint.py, lines 134-151).  The argument list holds the
status codes of the successive poll GETs; `elapsed` is `time.time() - start`
observed at the current poll's response (the first poll happens immediately
after submission, so the loop is entered with `elapsed = 0`).  The source order
of checks is: `not poll_response.ok` (status ≥ 400) is fatal; a status other
than 202 breaks the loop (success); otherwise, if `elapsed > timeout` the loop
fails with a timeout; otherwise it sleeps `poll_interval` seconds and polls
again.  The second component counts the polls issued. -/
def send_async_generation_request_loop (pollInterval timeout : Nat) :
    List Nat → Nat → PollOutcome × Nat
  | [], _ => (PollOutcome.pending, 0)
  | code :: rest, elapsed =>
    if 400 ≤ code then (PollOutcome.fatalHttp code, 1)
    else if code ≠ 202 then (PollOutcome.success code, 1)
    else if timeout < elapsed then (PollOutcome.fatalTimeout, 1)
    else
      let r := send_async_generation_request_loop pollInterval timeout rest
        (elapsed + pollInterval)
      (r.1, r.2 + 1)

/-- The self-contained polling loop of `generate_video`
(asset_generation_blueprint.py, lines 220-238): status 202 sleeps 10 seconds
and retries (with no timeout check), status 200 saves the video and returns,
and every other status is fatal.  The second component counts the polls
issued. -/
def generate_video_loop : List Nat → PollOutcome × Nat
  | [] => (PollOutcome.pending, 0)
  | code :: rest =>
    if code = 202 then
      let r := generate_video_loop rest
      (r.1, r.2 + 1)
    else if code = 200 then (PollOutcome.success code, 1)
    else (PollOutcome.fatalHttp code, 1)

lemma send_async_loop_202_step (pollInterval timeout : Nat) (rest : List Nat)
    (elapsed : Nat) (h : elapsed ≤ timeout) :
    send_async_generation_request_loop pollInterval timeout (202 :: rest) elapsed =
      ((send_async_generation_request_loop pollInterval timeout rest
          (elapsed + pollInterval)).1,
       (send_async_generation_request_loop pollInterval timeout rest
          (elapsed + pollInterval)).2 + 1) := by
  simp [send_async_generation_request_loop, Nat.not_lt.mpr h]

lemma send_async_loop_202_timeout (pollInterval timeout : Nat) (rest : List Nat)
    (elapsed : Nat) (h : timeout < elapsed) :
    send_async_generation_request_loop pollInterval timeout (202 :: rest) elapsed =
      (PollOutcome.fatalTimeout, 1) := by
  simp [send_async_generation_request_loop, h]

lemma send_async_loop_replicate (pollInterval timeout : Nat) :
    ∀ (n elapsed : Nat) (rest : List Nat),
      (∀ i, i < n → elapsed + i * pollInterval ≤ timeout) →
      send_async_generation_request_loop pollInterval timeout
          (List.replicate n 202 ++ rest) elapsed =
        ((send_async_generation_request_loop pollInterval timeout rest
            (elapsed + n * pollInterval)).1,
         (send_async_generation_request_loop pollInterval timeout rest
            (elapsed + n * pollInterval)).2 + n) := by
  intro n
  induction n with
  | zero => intro elapsed rest _; simp
  | succ m ih =>
    intro elapsed rest h
    have h0 : elapsed ≤ timeout := by
      have := h 0 (Nat.succ_pos m)
      simpa using this
    have harith : elapsed + pollInterval + m * pollInterval =
        elapsed + (m + 1) * pollInterval := by ring
    have hh : ∀ i, i < m → elapsed + pollInterval + i * pollInterval ≤ timeout := by
      intro i hi
      have := h (i + 1) (Nat.succ_lt_succ hi)
      calc elapsed + pollInterval + i * pollInterval
          = elapsed + (i + 1) * pollInterval := by ring
        _ ≤ timeout := this
    rw [List.replicate_succ, List.cons_append,
      send_async_loop_202_step pollInterval timeout _ _ h0,
      ih (elapsed + pollInterval) rest hh, harith]
    simp [Nat.add_assoc]

lemma generate_video_loop_replicate :
    ∀ (n : Nat) (rest : List Nat),
      generate_video_loop (List.replicate n 202 ++ rest) =
        ((generate_video_loop rest).1, (generate_video_loop rest).2 + n) := by
  intro n
  induction n with
  | zero => intro rest; simp
  | succ m ih =>
    intro rest
    rw [List.replicate_succ, List.cons_append]
    simp only [generate_video_loop, if_pos rfl, ih rest]
    simp [Nat.add_assoc]

/-- What an asynchronous submission does next once the submit response's JSON
body has been parsed and its `id` field extracted (`none` when the field is
absent). -/
inductive SubmitNext where
  | fatalNoId
  | pollWith (job_id : String)
deriving DecidableEq, Repr

/-- Job-id handling of `send_async_generation_request`
(asset_generation_blueprint.py, lines 127-133): `generation_id =
response_dict.get("id")`, then `if generation_id is None:` exit fatally;
otherwise the poll URL is built from `generation_id` and polling begins. -/
def send_async_generation_request_submit (id? : Option String) : SubmitNext :=
  match id? with
  | none => SubmitNext.fatalNoId
  | some s => SubmitNext.pollWith s

/-- Job-id handling of `generate_video` (asset_generation_blueprint.py, lines
214-219): `generation_id = response.json().get("id")`, then `if not
generation_id:` exit fatally — Python falsiness rejects both `None` and the
empty string — otherwise the per-job result URL is built and polling begins. -/
def generate_video_submit (id? : Option String) : SubmitNext :=
  match id? with
  | none => SubmitNext.fatalNoId
  | some s => if s.isEmpty then SubmitNext.fatalNoId else SubmitNext.pollWith s

/-- `unique_filename` (asset_generation_blueprint.py, lines 54-62).  `ts`
stands for `int(time.time())` at the moment of the call; `seed = none` models
the Python default `seed=None`. -/
def unique_filename (prefix_ ext : String) (seed : Option Nat) (ts : Nat) :
    String :=
  match seed with
  | some s => prefix_ ++ "_" ++ toString s ++ "_" ++ toString ts ++ "." ++ ext
  | none => prefix_ ++ "_" ++ toString ts ++ "." ++ ext

/-- How a mode invocation ends once an HTTP response is in hand.  `saved` is
the only constructor on whose path the script opens the output file and writes
the payload; both fatal constructors call `exit(1)` before any write. -/
inductive ModeResult where
  | fatalHttp (code : Nat)
  | fatalFiltered
  | saved (filename : String)
deriving DecidableEq, Repr

/-- Response handling of `generate_image` (asset_generation_blueprint.py,
lines 169-184): `send_generation_request` exits fatally on a non-ok status
(code ≥ 400); then `finish_reason = response.headers.get("finish-reason", "")`
and equality with "CONTENT_FILTERED" exits fatally; otherwise the image is
written to `unique_filename("generated", output_format, seed)`. -/
def generate_image_finish (status : Nat) (finishReason : Option String)
    (output_format : String) (seed ts : Nat) : ModeResult :=
  if 400 ≤ status then ModeResult.fatalHttp status
  else if finishReason.getD "" = "CONTENT_FILTERED" then ModeResult.fatalFiltered
  else ModeResult.saved (unique_filename "generated" output_format (some seed) ts)

/-- Response handling of `sketch_to_image` (asset_generation_blueprint.py,
lines 299-315): fatal on non-ok status, fatal on finish-reason
"CONTENT_FILTERED", else the image is written to
`edited_<stem>_<seed>.<output_format>` where `stem` is the input image's
basename without extension. -/
def sketch_to_image_finish (status : Nat) (finishReason : Option String)
    (stem : String) (seed : Nat) (output_format : String) : ModeResult :=
  if 400 ≤ status then ModeResult.fatalHttp status
  else if finishReason.getD "" = "CONTENT_FILTERED" then ModeResult.fatalFiltered
  else ModeResult.saved
    ("edited_" ++ stem ++ "_" ++ toString seed ++ "." ++ output_format)

/-- Response handling of `generate_sd3` (asset_generation_blueprint.py, lines
332-348): fatal on non-ok status, fatal on finish-reason "CONTENT_FILTERED",
else the image is written to `unique_filename("sd3_generated", output_format,
seed)`. -/
def generate_sd3_finish (status : Nat) (finishReason : Option String)
    (output_format : String) (seed ts : Nat) : ModeResult :=
  if 400 ≤ status then ModeResult.fatalHttp status
  else if finishReason.getD "" = "CONTENT_FILTERED" then ModeResult.fatalFiltered
  else ModeResult.saved (unique_filename "sd3_generated" output_format (some seed) ts)

/-- Response handling of `upscale_image` (asset_generation_blueprint.py, lines
386-402), applied to the response returned by the shared async poller: fatal on
non-ok status, fatal on finish-reason "CONTENT_FILTERED", else the image is
written to `upscaled_<stem>_<seed>.<output_format>`. -/
def upscale_image_finish (status : Nat) (finishReason : Option String)
    (stem : String) (seed : Nat) (output_format : String) : ModeResult :=
  if 400 ≤ status then ModeResult.fatalHttp status
  else if finishReason.getD "" = "CONTENT_FILTERED" then ModeResult.fatalFiltered
  else ModeResult.saved
    ("upscaled_" ++ stem ++ "_" ++ toString seed ++ "." ++ output_format)

/-- First action of `upscale_image` (asset_generation_blueprint.py, lines
356-368), taken before anything touches the network. -/
inductive UpscaleAction where
  | fatalMissingFile
  | fatalTooManyPixels
  | sendRequest
deriving DecidableEq, Repr

/-- The pre-network checks of `upscale_image` (asset_generation_blueprint.py,
lines 356-368): if the input file does not exist, exit fatally; open the image,
compute `total_pixels = width * height`, and if `total_pixels > 1048576` exit
fatally; only otherwise is `send_async_generation_request` reached
(`sendRequest` is the sole constructor on whose path a network call is
issued). -/
def upscale_image_precheck (input_exists : Bool) (width height : Nat) :
    UpscaleAction :=
  if !input_exists then UpscaleAction.fatalMissingFile
  else if 1048576 < width * height then UpscaleAction.fatalTooManyPixels
  else UpscaleAction.sendRequest

/-- Events in the execution of `send_generation_request` /
`send_async_generation_request`, in program order.  `openFile` records an
`open(..., 'rb')` of an attachment; `post` the `requests.post` call;
`closeFiles` the loop that closes every value of `files` that has a `close`
attribute; `fatalExit` an `exit(1)`; `ret` that control leaves the HTTP part
of the function normally (returning the response, or continuing to the job-id
extraction in the async variant). -/
inductive ReqEv where
  | openFile (name : String)
  | post
  | closeFiles
  | fatalExit
  | ret
deriving DecidableEq, Repr

/-- Result of the `requests.post` call: a response with a status code, or a
raised exception. -/
inductive PostResult where
  | resp (code : Nat)
  | exn
deriving DecidableEq, Repr

/-- Event trace of `send_generation_request` (asset_generation_blueprint.py,
lines 72-96).  `hasImage` / `hasMask` say whether `params` holds an
"image" / "mask" path naming an existing file, in which case the file is
opened in binary mode before the POST.  After `requests.post` returns, the
function iterates over `files` closing every file object, then checks
`response.ok` (fatal exit when the status is ≥ 400).  When `requests.post`
raises, the exception propagates out of the function immediately: there is no
try/finally around the close loop, so no further event occurs here. -/
def send_generation_request_events (hasImage hasMask : Bool)
    (r : PostResult) : List ReqEv :=
  (if hasImage then [ReqEv.openFile "image"] else []) ++
  (if hasMask then [ReqEv.openFile "mask"] else []) ++
  [ReqEv.post] ++
  match r with
  | PostResult.exn => []
  | PostResult.resp code =>
    [ReqEv.closeFiles] ++ (if 400 ≤ code then [ReqEv.fatalExit] else [ReqEv.ret])

/-- Event trace of the submission part of `send_async_generation_request`
(asset_generation_blueprint.py, lines 106-125), whose attachment handling is
line-for-line the same as `send_generation_request`: open the "image"/"mask"
attachments, POST, close the files, then the `response.ok` check. -/
def send_async_generation_request_events (hasImage hasMask : Bool)
    (r : PostResult) : List ReqEv :=
  (if hasImage then [ReqEv.openFile "image"] else []) ++
  (if hasMask then [ReqEv.openFile "mask"] else []) ++
  [ReqEv.post] ++
  match r with
  | PostResult.exn => []
  | PostResult.resp code =>
    [ReqEv.closeFiles] ++ (if 400 ≤ code then [ReqEv.fatalExit] else [ReqEv.ret])

/-- The `ListItem` record of numbered_list.py (lines 18-20). -/
structure ListItem where
  id : String
  title : String
deriving DecidableEq, Repr

/-- The default whitespace set of Python's `str.strip()`, restricted to
ASCII: space, tab, line feed, carriage return, vertical tab, form feed. -/
def pyIsSpace (c : Char) : Bool :=
  c = ' ' || c = '\t' || c = '\n' || c = '\r' ||
  c = Char.ofNat 11 || c = Char.ofNat 12

/-- Python's `s.strip()`: remove leading and trailing whitespace. -/
def pyStrip (s : String) : String :=
  String.mk (((s.toList.dropWhile pyIsSpace).reverse.dropWhile pyIsSpace).reverse)

/-- Helper for `splitFirst`: scan a character list for the first occurrence of
the separator, returning the part before it and the part after it. -/
def splitFirstAux (sep : List Char) : List Char → Option (List Char × List Char)
  | [] => none
  | c :: cs =>
    if sep.isPrefixOf (c :: cs) then some ([], (c :: cs).drop sep.length)
    else
      match splitFirstAux sep cs with
      | none => none
      | some (a, b) => some (c :: a, b)

/-- Python's `s.split(sep, 1)` restricted to the case where `sep` occurs in
`s`: the part before the first occurrence of `sep` and the remainder after it.
Returns `none` when `sep` does not occur (the Python membership test
`sep in s` is false exactly then). -/
def splitFirst (sep s : String) : Option (String × String) :=
  match splitFirstAux sep.toList s.toList with
  | none => none
  | some (a, b) => some (String.mk a, String.mk b)

/-- `parse_list` (numbered_list.py, lines 23-40), taking the result of
`output.splitlines()` as its argument.  Each line is stripped; empty lines are
skipped; a line containing ". " is split on the first occurrence into an id
part and a title, both stripped; a line without the separator becomes an item
with empty id and the stripped line as title. -/
def parse_list (lines : List String) : List ListItem :=
  match lines with
  | [] => []
  | line :: rest =>
    let stripped := pyStrip line
    if stripped = "" then parse_list rest
    else
      match splitFirst ". " stripped with
      | some (id_part, title) =>
        { id := pyStrip id_part, title := pyStrip title } :: parse_list rest
      | none => { id := "", title := stripped } :: parse_list rest

/-- `get_depth` (text_canvas.py, lines 77-78): the number of '.' characters in
the id string (`id_str.count(".")`). -/
def get_depth (id_str : String) : Nat :=
  (id_str.toList.filter (fun c => c = '.')).length

/-- `get_dash` (text_canvas.py, lines 80-88): 40 dashes at depth 0, 20 at
depth 1, 10 at depth 2, 5 at any deeper level (`'-' * k`). -/
def get_dash (depth : Nat) : String :=
  if depth = 0 then String.mk (List.replicate 40 '-')
  else if depth = 1 then String.mk (List.replicate 20 '-')
  else if depth = 2 then String.mk (List.replicate 10 '-')
  else String.mk (List.replicate 5 '-')

/-- The `negative_prompt` field placed into `params` by `generate_sd3`
(asset_generation_blueprint.py, line 325): `negative_prompt if model == "sd3"
else ""`. -/
def generate_sd3_negative_prompt_param (negative_prompt model : String) :
    String :=
  if model = "sd3" then negative_prompt else ""

/-- The model chosen by the SD3 menu of `interactive_main`
(asset_generation_blueprint.py, lines 587-597): `model_map.get(model_choice,
"sd3.5-large")` over the dictionary {"1": "sd3.5-large", "2":
"sd3-large-turbo", "3": "sd3-medium"}. -/
def interactive_sd3_model_map (model_choice : String) : String :=
  if model_choice = "1" then "sd3.5-large"
  else if model_choice = "2" then "sd3-large-turbo"
  else if model_choice = "3" then "sd3-medium"
  else "sd3.5-large"

lemma shared_loop_52_timeout (rest : List Nat) :
    send_async_generation_request_loop 10 500 (List.replicate 52 202 ++ rest) 0 =
      (PollOutcome.fatalTimeout, 52) := by
  have hrw : (List.replicate 52 202 : List Nat) ++ rest =
      List.replicate 51 202 ++ (202 :: rest) := by
    rw [List.replicate_succ', List.append_assoc, List.singleton_append]
  rw [hrw,
    send_async_loop_replicate 10 500 51 0 (202 :: rest) (by intro i hi; omega)]
  have h510 : 0 + 51 * 10 = 510 := by norm_num
  rw [h510, send_async_loop_202_timeout 10 500 rest 510 (by norm_num)]

lemma shared_loop_pending_le51 (n : Nat) (h : n ≤ 51) :
    (send_async_generation_request_loop 10 500 (List.replicate n 202) 0).1 =
      PollOutcome.pending := by
  rw [← List.append_nil (List.replicate n 202),
    send_async_loop_replicate 10 500 n 0 [] (by intro i hi; omega)]
  simp [send_async_generation_request_loop]

/-- Claim C1, counterexample: after 51 consecutive 202 responses the shared
poller has not halted — it is still pending and will issue a 52nd poll — and
the fatal timeout in fact occurs upon the 52nd consecutive 202 response, after
52 polls. -/
theorem claim_C1_counterexample :
    send_async_generation_request_loop 10 500 (List.replicate 51 202) 0 =
      (PollOutcome.pending, 51) ∧
    send_async_generation_request_loop 10 500 (List.replicate 52 202) 0 =
      (PollOutcome.fatalTimeout, 52) := by
  decide

/-- Claim C1, amended: in `send_async_generation_request` (poll interval 10s,
timeout 500s) the polling loop repeats exactly while the status GET returns
202, and if 202 persists the loop halts with a fatal timeout error upon the
52nd consecutive 202 response (at elapsed time 510 seconds) without issuing a
53rd poll: on any response sequence beginning with 52 202s it times out after
exactly 52 polls, while after at most 51 consecutive 202s it is still
polling. -/
theorem claim_C1_amended :
    (∀ rest : List Nat,
      send_async_generation_request_loop 10 500 (List.replicate 52 202 ++ rest) 0 =
        (PollOutcome.fatalTimeout, 52)) ∧
    (∀ n : Nat, n ≤ 51 →
      (send_async_generation_request_loop 10 500 (List.replicate n 202) 0).1 =
        PollOutcome.pending) :=
  ⟨shared_loop_52_timeout, shared_loop_pending_le51⟩

/-- Claim C1, witness: the amended statement applied at a concrete tail and
at n = 51. -/
theorem claim_C1_amended_witness :
    send_async_generation_request_loop 10 500
        (List.replicate 52 202 ++ [200]) 0 = (PollOutcome.fatalTimeout, 52) ∧
    (send_async_generation_request_loop 10 500 (List.replicate 51 202) 0).1 =
      PollOutcome.pending :=
  ⟨claim_C1_amended.1 [200], claim_C1_amended.2 51 (by norm_num)⟩

/-- Claim C2, counterexample: the two poll loops disagree on the response
sequence [204] — the video loop fails fatally while the shared helper treats
204 as success — and they disagree on 52 consecutive 202s, where the shared
helper times out while the video loop (which has no timeout) keeps polling. -/
theorem claim_C2_counterexample :
    generate_video_loop [204] ≠
      send_async_generation_request_loop 10 500 [204] 0 ∧
    generate_video_loop [204] = (PollOutcome.fatalHttp 204, 1) ∧
    send_async_generation_request_loop 10 500 [204] 0 =
      (PollOutcome.success 204, 1) ∧
    (generate_video_loop (List.replicate 52 202)).1 = PollOutcome.pending ∧
    (send_async_generation_request_loop 10 500 (List.replicate 52 202) 0).1 =
      PollOutcome.fatalTimeout := by
  decide

/-- Claim C2, amended: both loops poll at a fixed 10-second interval and
retry exactly on 202, and they agree on any run of at most 51 202 responses
followed by a 200; but they are not behaviorally equivalent: the video loop
succeeds only on status 200 exactly and treats every other non-202 status
(even a success status such as 204) as fatal, whereas the shared helper
succeeds on any non-202 status below 400; and the video loop enforces no
timeout, remaining pending after arbitrarily many 202s, whereas the shared
helper fails with a timeout upon the 52nd consecutive 202. -/
theorem claim_C2_amended :
    (∀ (n : Nat) (rest : List Nat),
      generate_video_loop (List.replicate n 202 ++ rest) =
        ((generate_video_loop rest).1, (generate_video_loop rest).2 + n)) ∧
    (∀ n : Nat, (generate_video_loop (List.replicate n 202)).1 =
      PollOutcome.pending) ∧
    (∀ code : Nat, code ≠ 202 → code ≠ 200 →
      generate_video_loop [code] = (PollOutcome.fatalHttp code, 1)) ∧
    (∀ code : Nat, code < 400 → code ≠ 202 →
      send_async_generation_request_loop 10 500 [code] 0 =
        (PollOutcome.success code, 1)) ∧
    (∀ rest : List Nat,
      send_async_generation_request_loop 10 500
        (List.replicate 52 202 ++ rest) 0 = (PollOutcome.fatalTimeout, 52)) ∧
    (∀ n : Nat, n ≤ 51 → ∀ rest : List Nat,
      generate_video_loop (List.replicate n 202 ++ (200 :: rest)) =
        send_async_generation_request_loop 10 500
          (List.replicate n 202 ++ (200 :: rest)) 0) := by
  refine ⟨generate_video_loop_replicate, ?_, ?_, ?_, shared_loop_52_timeout, ?_⟩
  · intro n
    rw [← List.append_nil (List.replicate n 202), generate_video_loop_replicate]
    simp [generate_video_loop]
  · intro code h202 h200
    simp [generate_video_loop, h202, h200]
  · intro code h400 h202
    simp [send_async_generation_request_loop, h202, Nat.not_le.mpr h400]
  · intro n hn rest
    rw [generate_video_loop_replicate,
      send_async_loop_replicate 10 500 n 0 (200 :: rest) (by intro i hi; omega)]
    simp [generate_video_loop, send_async_generation_request_loop]

/-- Claim C2, witness: the amended statement applied at concrete inputs. -/
theorem claim_C2_amended_witness :
    generate_video_loop (List.replicate 2 202 ++ [404]) =
      ((generate_video_loop [404]).1, (generate_video_loop [404]).2 + 2) ∧
    (generate_video_loop (List.replicate 60 202)).1 = PollOutcome.pending ∧
    generate_video_loop [204] = (PollOutcome.fatalHttp 204, 1) ∧
    send_async_generation_request_loop 10 500 [204] 0 =
      (PollOutcome.success 204, 1) ∧
    send_async_generation_request_loop 10 500
      (List.replicate 52 202 ++ [200]) 0 = (PollOutcome.fatalTimeout, 52) ∧
    generate_video_loop (List.replicate 3 202 ++ (200 :: [])) =
      send_async_generation_request_loop 10 500
        (List.replicate 3 202 ++ (200 :: [])) 0 :=
  ⟨claim_C2_amended.1 2 [404], claim_C2_amended.2.1 60,
   claim_C2_amended.2.2.1 204 (by norm_num) (by norm_num),
   claim_C2_amended.2.2.2.1 204 (by norm_num) (by norm_num),
   claim_C2_amended.2.2.2.2.1 [200],
   claim_C2_amended.2.2.2.2.2 3 (by norm_num) []⟩

/-- Claim C3, counterexample: when the submit response carries the empty
string as its `id`, the shared poller `send_async_generation_request` — whose
only guard is `if generation_id is None` — proceeds to polling with the empty
job id, while `generate_video` (guard `if not generation_id`) fails fatally. -/
theorem claim_C3_counterexample :
    send_async_generation_request_submit (some "") = SubmitNext.pollWith "" ∧
    generate_video_submit (some "") = SubmitNext.fatalNoId := by
  decide

/-- Claim C3, amended: in the video mode, polling begins exactly when the
submit response carries a non-empty job identifier (a missing or empty id is a
fatal precondition failure before any status poll); in the shared poller,
polling begins whenever the id field is present at all — only a missing id is
fatal, and an empty-string id is accepted and polled with. -/
theorem claim_C3_amended :
    (∀ id? : Option String,
      send_async_generation_request_submit id? = SubmitNext.fatalNoId ↔
        id? = none) ∧
    (∀ id? : Option String,
      generate_video_submit id? = SubmitNext.fatalNoId ↔
        (id? = none ∨ id? = some "")) ∧
    (∀ s : String, s ≠ "" →
      generate_video_submit (some s) = SubmitNext.pollWith s) := by
  refine ⟨?_, ?_, ?_⟩
  · intro id?
    cases id? <;> simp [send_async_generation_request_submit]
  · intro id?
    cases id? with
    | none => simp [generate_video_submit]
    | some s =>
      by_cases h : s = ""
      · subst h; decide
      · have : s.isEmpty = false := by
          rw [Bool.eq_false_iff]
          intro hc
          exact h ((String.isEmpty_iff s).mp hc)
        simp [generate_video_submit, this, h]
  · intro s h
    have : s.isEmpty = false := by
      rw [Bool.eq_false_iff]
      intro hc
      exact h ((String.isEmpty_iff s).mp hc)
    simp [generate_video_submit, this]

/-- Claim C3, witness: the amended statement applied to the absent id and to
a concrete non-empty id. -/
theorem claim_C3_amended_witness :
    (send_async_generation_request_submit none = SubmitNext.fatalNoId ↔
      (none : Option String) = none) ∧
    generate_video_submit (some "job1") = SubmitNext.pollWith "job1" :=
  ⟨claim_C3_amended.1 none, claim_C3_amended.2.2 "job1" (by decide)⟩

/-- Claim C4: in every image-producing mode (image, sketch, sd3, upscale),
when the HTTP status is a success (below 400) but the `finish-reason` header
equals "CONTENT_FILTERED", the invocation ends with the fatal
content-filtered exit, which in the embedding is distinct from every
`ModeResult.saved` outcome — so no output file is written. -/
theorem claim_C4 :
    ∀ status : Nat, status < 400 →
    ∀ (fmt stem : String) (seed ts : Nat),
      generate_image_finish status (some "CONTENT_FILTERED") fmt seed ts =
        ModeResult.fatalFiltered ∧
      sketch_to_image_finish status (some "CONTENT_FILTERED") stem seed fmt =
        ModeResult.fatalFiltered ∧
      generate_sd3_finish status (some "CONTENT_FILTERED") fmt seed ts =
        ModeResult.fatalFiltered ∧
      upscale_image_finish status (some "CONTENT_FILTERED") stem seed fmt =
        ModeResult.fatalFiltered ∧
      (∀ f : String,
        generate_image_finish status (some "CONTENT_FILTERED") fmt seed ts ≠
          ModeResult.saved f) := by
  intro status h fmt stem seed ts
  have h4 : ¬ (400 ≤ status) := by omega
  refine ⟨?_, ?_, ?_, ?_, ?_⟩ <;>
    simp [generate_image_finish, sketch_to_image_finish, generate_sd3_finish,
      upscale_image_finish, h4]

/-- Claim C4, witness: the theorem applied at HTTP status 200 with concrete
parameters. -/
theorem claim_C4_witness :
    generate_image_finish 200 (some "CONTENT_FILTERED") "jpeg" 42 1700000000 =
      ModeResult.fatalFiltered ∧
    sketch_to_image_finish 200 (some "CONTENT_FILTERED") "sketch" 42 "jpeg" =
      ModeResult.fatalFiltered ∧
    generate_sd3_finish 200 (some "CONTENT_FILTERED") "jpeg" 42 1700000000 =
      ModeResult.fatalFiltered ∧
    upscale_image_finish 200 (some "CONTENT_FILTERED") "sketch" 42 "jpeg" =
      ModeResult.fatalFiltered ∧
    (∀ f : String,
      generate_image_finish 200 (some "CONTENT_FILTERED") "jpeg" 42 1700000000 ≠
        ModeResult.saved f) :=
  claim_C4 200 (by norm_num) "jpeg" "sketch" 42 1700000000

/-- Claim C5: with an existing input file, `upscale_image` exits with the
pixel-limit error — before its network-issuing step `sendRequest` — exactly
when width times height exceeds 1,048,576, and reaches the network step
exactly when the area is at or below the limit; in particular a 1025×1025
image is rejected and a 1024×1024 image is accepted. -/
theorem claim_C5 :
    (∀ w h : Nat, upscale_image_precheck true w h =
      UpscaleAction.fatalTooManyPixels ↔ 1048576 < w * h) ∧
    (∀ w h : Nat, upscale_image_precheck true w h =
      UpscaleAction.sendRequest ↔ w * h ≤ 1048576) ∧
    upscale_image_precheck true 1025 1025 = UpscaleAction.fatalTooManyPixels ∧
    upscale_image_precheck true 1024 1024 = UpscaleAction.sendRequest := by
  refine ⟨?_, ?_, by decide, by decide⟩
  · intro w h
    by_cases hc : 1048576 < w * h <;> simp [upscale_image_precheck, hc]
  · intro w h
    by_cases hc : 1048576 < w * h <;> simp [upscale_image_precheck, hc] <;> omega

/-- Claim C6, counterexample: when `requests.post` raises an exception, both
`send_generation_request` and `send_async_generation_request` leave an opened
"image" attachment unclosed — there is no try/finally around the close loop,
so the close event never occurs on that exit path. -/
theorem claim_C6_counterexample :
    ReqEv.openFile "image" ∈
      send_generation_request_events true false PostResult.exn ∧
    ReqEv.closeFiles ∉
      send_generation_request_events true false PostResult.exn ∧
    ReqEv.openFile "image" ∈
      send_async_generation_request_events true false PostResult.exn ∧
    ReqEv.closeFiles ∉
      send_async_generation_request_events true false PostResult.exn := by
  decide

/-- Claim C6, amended: in both request helpers the opened attachment handles
are closed on every path on which `requests.post` returns a response, whether
the status is a success or not; but when `requests.post` raises an exception,
the functions (which have no try/finally) never reach the close loop, so the
handles are not closed on that exit path. -/
theorem claim_C6_amended :
    (∀ (hi hm : Bool) (code : Nat),
      ReqEv.closeFiles ∈
        send_generation_request_events hi hm (PostResult.resp code) ∧
      ReqEv.closeFiles ∈
        send_async_generation_request_events hi hm (PostResult.resp code)) ∧
    (∀ hi hm : Bool,
      ReqEv.closeFiles ∉ send_generation_request_events hi hm PostResult.exn ∧
      ReqEv.closeFiles ∉
        send_async_generation_request_events hi hm PostResult.exn) := by
  constructor
  · intro hi hm code
    cases hi <;> cases hm <;>
      constructor <;>
        simp [send_generation_request_events,
          send_async_generation_request_events] <;>
        split <;> simp
  · intro hi hm
    cases hi <;> cases hm <;> exact ⟨by decide, by decide⟩

/-- Claim C7: `unique_filename` is deterministic in its inputs, evaluating to
`model_1700000000.glb` and `generated_7_1700000000.jpeg` on the spec's
examples, and in general produces `<prefix>_<timestamp>.<ext>` without a seed
and `<prefix>_<seed>_<timestamp>.<ext>` with one. -/
theorem claim_C7 :
    unique_filename "model" "glb" none 1700000000 = "model_1700000000.glb" ∧
    unique_filename "generated" "jpeg" (some 7) 1700000000 =
      "generated_7_1700000000.jpeg" ∧
    (∀ (p e : String) (ts : Nat),
      unique_filename p e none ts = p ++ "_" ++ toString ts ++ "." ++ e) ∧
    (∀ (p e : String) (s ts : Nat),
      unique_filename p e (some s) ts =
        p ++ "_" ++ toString s ++ "_" ++ toString ts ++ "." ++ e) :=
  ⟨by decide, by decide, fun _ _ _ => rfl, fun _ _ _ _ => rfl⟩

/-- Claim C8: `parse_list` splits each non-empty line on the first ". "
occurrence into an id and a title — "1.2. Define requirements" yields id
"1.2" and title "Define requirements", a separator-free line yields an
empty-id item, a line with several ". " occurrences splits at the first one,
and blank lines are skipped while other lines are parsed independently. -/
theorem claim_C8 :
    parse_list ["1.2. Define requirements"] =
      [{ id := "1.2", title := "Define requirements" }] ∧
    parse_list ["Miscellaneous notes"] =
      [{ id := "", title := "Miscellaneous notes" }] ∧
    parse_list ["1. 2. three"] = [{ id := "1", title := "2. three" }] ∧
    parse_list ["1. Intro", "  ", "1.1. Scope", "Notes"] =
      [{ id := "1", title := "Intro" }, { id := "1.1", title := "Scope" },
       { id := "", title := "Notes" }] := by
  decide

/-- Claim C9: the rendered indentation of an outline item is a step function
of its id's dot count — 40 dashes at depth 0, 20 at depth 1, 10 at depth 2
and 5 at depth 3 or deeper — as shown in general for every depth and on the
ids "1", "1.2", "1.2.3", "1.2.3.4" and "1.2.3.4.5". -/
theorem claim_C9 :
    (∀ d : Nat, (get_dash d).length =
      if d = 0 then 40 else if d = 1 then 20 else if d = 2 then 10 else 5) ∧
    get_dash (get_depth "1") = String.mk (List.replicate 40 '-') ∧
    get_dash (get_depth "1.2") = String.mk (List.replicate 20 '-') ∧
    get_dash (get_depth "1.2.3") = String.mk (List.replicate 10 '-') ∧
    get_dash (get_depth "1.2.3.4") = String.mk (List.replicate 5 '-') ∧
    get_dash (get_depth "1.2.3.4.5") = String.mk (List.replicate 5 '-') := by
  refine ⟨?_, by decide, by decide, by decide, by decide, by decide⟩
  intro d
  unfold get_dash
  split_ifs <;> decide

/-- Claim C10: for every choice on the interactive SD3 menu (including the
default taken on unknown input), the selected model is one of sd3.5-large,
sd3-large-turbo, sd3-medium — never the exact string "sd3" — so the
`negative_prompt` field `generate_sd3` puts into its request parameters is the
empty string, whatever negative prompt the user supplied. -/
theorem claim_C10 :
    (∀ model_choice negative_prompt : String,
      generate_sd3_negative_prompt_param negative_prompt
        (interactive_sd3_model_map model_choice) = "") ∧
    (∀ model_choice : String, interactive_sd3_model_map model_choice ≠ "sd3") := by
  constructor
  · intro c np
    unfold interactive_sd3_model_map
    split_ifs <;> simp [generate_sd3_negative_prompt_param]
  · intro c
    unfold interactive_sd3_model_map
    split_ifs <;> decide
